import Mathlib

/-!
Shallow embedding of the WonderOfUs mental-health demo (Next.js front end plus
a thin FastAPI backend).  JavaScript numbers are modelled as rationals; the
mutable React handlers are modelled as pure functions from their inputs (with
the backend HTTP call abstracted as a function argument).  Sources:
`src/frontend/src/components/FaceScanner.tsx`,
`src/frontend/src/components/MoodAnalyzer.tsx`,
`src/frontend/src/components/MoodDashboard.tsx`, and the response shapes in
the API service module (`src/unnamed/part_002`).
-/

namespace WonderOfUs

/-- Emotion names treated as positive by the mood scorer
(FaceScanner.tsx line 164). -/
def positiveEmotions : List String := ["happy", "surprised"]

/-- Emotion names treated as negative by the mood scorer
(FaceScanner.tsx line 165). -/
def negativeEmotions : List String := ["sad", "angry", "fearful", "disgusted"]

/-- One iteration of the loop body in `calculateMoodScore`
(FaceScanner.tsx lines 169-175): add three times the intensity for a
positive emotion, subtract three times the intensity for a negative one,
ignore every other emotion name. -/
def moodStep (score : ℚ) (entry : String × ℚ) : ℚ :=
  if positiveEmotions.contains entry.1 then score + entry.2 * 3
  else if negativeEmotions.contains entry.1 then score - entry.2 * 3
  else score

/-- The function `calculateMoodScore` from FaceScanner.tsx lines 162-178: start from the
neutral baseline 5.0, fold the weighted contributions over the expression
entries, then clamp with `Math.max(0, Math.min(10, score))`.  The
expressions object is modelled as its `Object.entries` list. -/
def calculateMoodScore (expressions : List (String × ℚ)) : ℚ :=
  max 0 (min 10 (expressions.foldl moodStep 5))

/-- Sentiment part of the analyze response (`src/unnamed/part_002`). -/
structure Sentiment where
  label : String
  score : ℚ
  deriving DecidableEq

/-- Risk level of the crisis check: the string union LOW | MEDIUM | HIGH
(`src/unnamed/part_002`). -/
inductive RiskLevel where
  | LOW
  | MEDIUM
  | HIGH
  deriving DecidableEq

/-- One crisis-support resource in the analyze response
(`src/unnamed/part_002`). -/
structure Resource where
  name : String
  phone : String
  text : Option String
  available : String
  priority : Option String
  deriving DecidableEq

/-- The `crisis_check` part of the analyze response (`src/unnamed/part_002`). -/
structure CrisisCheck where
  risk_level : RiskLevel
  indicators : List String
  requires_immediate_attention : Bool
  resources : List Resource
  ai_reasoning : Option String
  ai_enhanced : Option Bool
  deriving DecidableEq

/-- The `mood_analysis` part of the analyze response (`src/unnamed/part_002`).
The `emotions` record is modelled as its entry list. -/
structure MoodAnalysis where
  sentiment : Sentiment
  emotions : List (String × ℚ)
  mood_score : ℚ
  text_length : ℕ
  deriving DecidableEq

/-- One recommendation in the analyze response (`src/unnamed/part_002`). -/
structure Recommendation where
  rec_type : String
  title : String
  description : String
  priority : String
  source : Option String
  ai_enhanced : Option Bool
  deriving DecidableEq

/-- The full response of `POST /api/mood/analyze` (`src/unnamed/part_002`,
interface `MoodAnalysisResponse`). -/
structure MoodAnalysisResponse where
  success : Bool
  mood_analysis : MoodAnalysis
  crisis_check : CrisisCheck
  recommendations : List Recommendation
  deriving DecidableEq

/-- The descending comparator `(a, b) => b - a` used on `[name, value]`
pairs in FaceScanner.tsx, MoodAnalyzer.tsx and MoodDashboard.tsx: an entry
stays before another one iff its value is at least as large. -/
def byScoreDesc (p q : String × ℚ) : Bool := decide (q.2 ≤ p.2)

/-- The emotion names sent to the backend by `handleFaceEmotionDetected`
(MoodAnalyzer.tsx lines 57-61): keep intensities above 0.1, sort
descending, take the first three names. -/
def faceTopEmotionNames (emotions : List (String × ℚ)) : List String :=
  (((emotions.filter (fun p => decide ((1 : ℚ)/10 < p.2))).mergeSort
      byScoreDesc).take 3).map Prod.fst

/-- The text synthesised for the backend call in `handleFaceEmotionDetected`
(MoodAnalyzer.tsx line 63). -/
def emotionText (emotions : List (String × ℚ)) : String :=
  "I\x27m feeling " ++ String.intercalate ", " (faceTopEmotionNames emotions) ++
    " based on my facial expression."

/-- The handler `handleFaceEmotionDetected` from MoodAnalyzer.tsx lines 55-81 (success
path): call the backend on the synthesised emotion text, then overwrite
`mood_analysis.mood_score` and `mood_analysis.emotions` with the face-scan
values.  The HTTP call `moodAPI.analyze` is abstracted as the function
argument `analyze`. -/
def handleFaceEmotionDetected (analyze : String → MoodAnalysisResponse)
    (emotions : List (String × ℚ)) (moodScore : ℚ) : MoodAnalysisResponse :=
  let response := analyze (emotionText emotions)
  { response with
      mood_analysis := { response.mood_analysis with
        mood_score := moodScore
        emotions := emotions } }

/-- JavaScript `String.prototype.trim`, used by `handleAnalyze`: drop
leading and trailing whitespace.  Implemented over the character list so it
reduces definitionally. -/
def jsTrim (s : String) : String :=
  String.mk (((s.data.dropWhile Char.isWhitespace).reverse.dropWhile
    Char.isWhitespace).reverse)

/-- The handler `handleAnalyze` from MoodAnalyzer.tsx lines 17-39: reject blank input
(`!text.trim()`) with the inline error message without calling the backend;
otherwise call the backend and return its response. -/
def handleAnalyze (analyze : String → MoodAnalysisResponse) (text : String) :
    Except String MoodAnalysisResponse :=
  if jsTrim text = "" then Except.error "Please enter some text to analyze"
  else Except.ok (analyze text)

/-- One entry of the stored mood history (`src/unnamed/part_002`, interface
`MoodHistoryEntry`). -/
structure MoodHistoryEntry where
  timestamp : String
  mood_score : ℚ
  sentiment : Sentiment
  emotions : List (String × ℚ)
  text : String
  deriving DecidableEq

/-- The body of the `reduce` in MoodDashboard.tsx lines 61-67: add `score`
to the accumulator entry for `emotion`, starting it at 0 when the key is
absent.  The accumulator object is modelled as its entry list in key
insertion order, which is how JavaScript enumerates non-numeric keys. -/
def addEmotion : List (String × ℚ) → String → ℚ → List (String × ℚ)
  | [], emotion, score => [(emotion, score)]
  | (e, s) :: rest, emotion, score =>
    if e = emotion then (e, s + score) :: rest
    else (e, s) :: addEmotion rest emotion score

/-- The accumulator `emotionData` from MoodDashboard.tsx lines 61-67: fold every entry of
every history item into a per-emotion running total. -/
def emotionData (history : List MoodHistoryEntry) : List (String × ℚ) :=
  history.foldl (fun acc entry =>
    entry.emotions.foldl (fun a p => addEmotion a p.1 p.2) acc) []

/-- The summary `topEmotions` from MoodDashboard.tsx lines 69-75: sort the per-emotion
totals descending, take the first five, and report each as total divided by
the number of history entries. -/
def topEmotions (history : List MoodHistoryEntry) : List (String × ℚ) :=
  (((emotionData history).mergeSort byScoreDesc).take 5).map
    (fun p => (p.1, p.2 / (history.length : ℚ)))

/-- Spec side of claim C6: the emotion pairs of the whole window, in entry
order. -/
def allEmotionPairs (history : List MoodHistoryEntry) : List (String × ℚ) :=
  history.foldr (fun e acc => e.emotions ++ acc) []

/-- The distinct keys of a pair list, in order of first appearance. -/
def collectKeys (ps : List (String × ℚ)) : List String :=
  ps.foldl (fun a p => if p.1 ∈ a then a else a ++ [p.1]) []

/-- The per-emotion running totals built by folding `addEmotion` over a
pair list, starting from the empty accumulator. -/
def buildMap (ps : List (String × ℚ)) : List (String × ℚ) :=
  ps.foldl (fun a p => addEmotion a p.1 p.2) []

/-- The total intensity recorded for one key in a pair list. -/
def sumFor (ps : List (String × ℚ)) (name : String) : ℚ :=
  ((ps.filter (fun p => decide (p.1 = name))).map Prod.snd).sum

/-- Spec side of claim C6: the distinct emotion names of the window. -/
def emotionNames (history : List MoodHistoryEntry) : List String :=
  collectKeys (allEmotionPairs history)

/-- Spec side of claim C6, from the spec words: the sum of the intensities
recorded for one emotion name across all entries of the window. -/
def sumIntensity (history : List MoodHistoryEntry) (name : String) : ℚ :=
  sumFor (allEmotionPairs history) name

/-- Spec side of claim C6, from the spec words: sum intensities per emotion
across the window, rank the sums descending, take the top five, report each
as the sum divided by the number of entries. -/
def specTopEmotions (history : List MoodHistoryEntry) : List (String × ℚ) :=
  ((((emotionNames history).map (fun n => (n, sumIntensity history n))).mergeSort
      byScoreDesc).take 5).map
    (fun p => (p.1, p.2 / (history.length : ℚ)))

/-- The pattern summary consumed by the dashboard: the backend patterns
object, whose fields the dashboard reads defensively with optional
chaining (MoodDashboard.tsx lines 148-176). -/
structure PatternSummary where
  average_mood : Option ℚ
  trend : Option String
  ai_insight : Option String

/-- The three mutually exclusive top-level renderings of `MoodDashboard`
(MoodDashboard.tsx lines 77-120 and onward): the loading spinner, the
no-data card shown when the history is empty, and the data view whose
summary cards show the average-mood text, the entry count and the trend
text. -/
inductive DashboardView where
  | loadingView
  | noDataView
  | dataView (averageMood : String) (totalEntries : ℕ) (trend : String)
  deriving DecidableEq

/-- Decimal rendering standing in for `Number.prototype.toFixed(1)` in the
average-mood card (MoodDashboard.tsx line 158). -/
def toFixed1 (q : ℚ) : String :=
  let n : ℤ := round (q * 10)
  toString (n / 10) ++ "." ++ toString (n % 10).natAbs

/-- The average-mood card text from MoodDashboard.tsx line 158: the
optional chain gives the formatted average when present, and the `||`
fallback yields the sentinel for a missing (or falsy) value. -/
def averageMoodText (patterns : Option PatternSummary) : String :=
  match (patterns.bind (fun p => p.average_mood)).map toFixed1 with
  | none => "N/A"
  | some s => if s = "" then "N/A" else s

/-- The trend card text from MoodDashboard.tsx line 174 with its STABLE
fallback. -/
def trendText (patterns : Option PatternSummary) : String :=
  match patterns.bind (fun p => p.trend) with
  | none => "STABLE"
  | some t => if t = "" then "STABLE" else t

/-- The top-level rendering decision of `MoodDashboard` (MoodDashboard.tsx
lines 77-176): the spinner while loading, the no-data card for an empty
history, otherwise the data view. -/
def renderDashboard (loading : Bool) (history : List MoodHistoryEntry)
    (patterns : Option PatternSummary) : DashboardView :=
  if loading then DashboardView.loadingView
  else if history.length = 0 then DashboardView.noDataView
  else DashboardView.dataView (averageMoodText patterns) history.length
    (trendText patterns)

/-- Modelled from the spec: one fixed crisis-indicator category of the
backend rule scan.  The backend service (`backend/app/services`) is not
present under `src/`; spec section 4.2 describes fixed indicator categories
such as hopelessness and self-harm ideation, each of a given severity. -/
structure IndicatorCategory where
  name : String
  highSeverity : Bool
  phrases : List String

/-- Substring membership used by the rule scan: the phrase occurs in the
text. -/
def containsPhrase (text phrase : String) : Bool :=
  decide (2 ≤ (text.splitOn phrase).length)

/-- Modelled from the spec: the categories whose phrases the rule scan
matches in the input text. -/
def matchedCategories (categories : List IndicatorCategory) (text : String) :
    List IndicatorCategory :=
  categories.filter (fun c => c.phrases.any (fun p => containsPhrase text p))

/-- Modelled from the spec: the backend crisis checker (spec section 4.2),
whose code is not under `src/`.  Scan the text for membership in the fixed
indicator categories; `risk_level` is HIGH if any high-severity indicator is
present, MEDIUM if only moderate indicators are present, LOW otherwise;
`requires_immediate_attention` is true iff `risk_level` is HIGH; the
resource list is a static priority-sorted catalog truncated to a fixed
display count; the optional reasoning annotation never changes the computed
risk level. -/
def checkCrisis (categories : List IndicatorCategory) (catalog : List Resource)
    (displayCount : ℕ) (text : String) : CrisisCheck :=
  let matched := matchedCategories categories text
  let risk : RiskLevel :=
    if matched.any (fun c => c.highSeverity) then RiskLevel.HIGH
    else if matched.isEmpty then RiskLevel.LOW
    else RiskLevel.MEDIUM
  { risk_level := risk
    indicators := matched.map (fun c => c.name)
    requires_immediate_attention := decide (risk = RiskLevel.HIGH)
    resources := catalog.take displayCount
    ai_reasoning := none
    ai_enhanced := none }

/-- A concrete analyze response used by witnesses. -/
def sampleResponse : MoodAnalysisResponse where
  success := true
  mood_analysis :=
    { sentiment := { label := "POSITIVE", score := 9/10 }
      emotions := [("happy", 1)]
      mood_score := 7
      text_length := 5 }
  crisis_check :=
    { risk_level := RiskLevel.LOW
      indicators := []
      requires_immediate_attention := false
      resources := []
      ai_reasoning := none
      ai_enhanced := none }
  recommendations := []

/-! ### Helper lemmas about the mood scorer -/

lemma foldl_moodStep_zero (expressions : List (String × ℚ))
    (h : ∀ p ∈ expressions, p.2 = 0) :
    ∀ s : ℚ, expressions.foldl moodStep s = s := by
  induction expressions with
  | nil => intro s; rfl
  | cons p ps ih =>
    intro s
    have hp : p.2 = 0 := h p (List.mem_cons_self p ps)
    have hstep : moodStep s p = s := by
      unfold moodStep; split_ifs <;> simp [hp]
    rw [List.foldl_cons, hstep]
    exact ih (fun q hq => h q (List.mem_cons_of_mem p hq)) s

lemma moodStep_mono_left (p : String × ℚ) {s t : ℚ} (h : s ≤ t) :
    moodStep s p ≤ moodStep t p := by
  unfold moodStep; split_ifs <;> linarith

lemma foldl_moodStep_mono :
    ∀ (ps : List (String × ℚ)) {s t : ℚ}, s ≤ t →
      ps.foldl moodStep s ≤ ps.foldl moodStep t
  | [], _, _, h => h
  | p :: ps, s, t, h => by
    rw [List.foldl_cons, List.foldl_cons]
    exact foldl_moodStep_mono ps (moodStep_mono_left p h)

lemma clamp_mono {s t : ℚ} (h : s ≤ t) :
    max 0 (min 10 s) ≤ max 0 (min 10 t) :=
  max_le_max le_rfl (min_le_min le_rfl h)

/-! ### Helper lemmas about the emotion aggregation -/

lemma buildMap_append (ps : List (String × ℚ)) (p : String × ℚ) :
    buildMap (ps ++ [p]) = addEmotion (buildMap ps) p.1 p.2 := by
  unfold buildMap
  rw [List.foldl_append]
  rfl

lemma collectKeys_append (ps : List (String × ℚ)) (p : String × ℚ) :
    collectKeys (ps ++ [p]) =
      if p.1 ∈ collectKeys ps then collectKeys ps
      else collectKeys ps ++ [p.1] := by
  unfold collectKeys
  rw [List.foldl_append]
  rfl

lemma sumFor_append (ps : List (String × ℚ)) (p : String × ℚ) (n : String) :
    sumFor (ps ++ [p]) n = sumFor ps n + (if p.1 = n then p.2 else 0) := by
  unfold sumFor
  rw [List.filter_append, List.map_append, List.sum_append]
  congr 1
  by_cases h : p.1 = n
  · simp [List.filter_cons, h]
  · simp [List.filter_cons, h]

lemma collectKeys_nodup (ps : List (String × ℚ)) : (collectKeys ps).Nodup := by
  induction ps using List.reverseRecOn with
  | nil => simp [collectKeys]
  | append_singleton ps p ih =>
    rw [collectKeys_append]
    split_ifs with h
    · exact ih
    · rw [← List.concat_eq_append]
      exact List.Nodup.concat h ih

lemma fst_mem_collectKeys (ps : List (String × ℚ)) (q : String × ℚ) :
    q ∈ ps → q.1 ∈ collectKeys ps := by
  induction ps using List.reverseRecOn with
  | nil => intro h; simp at h
  | append_singleton ps p ih =>
    intro hq
    rw [collectKeys_append]
    rcases List.mem_append.mp hq with h | h
    · have hmem := ih h
      split_ifs
      · exact hmem
      · exact List.mem_append_left _ hmem
    · have hqp : q = p := by simpa using h
      subst hqp
      split_ifs with hmem
      · exact hmem
      · exact List.mem_append_right _ (by simp)

lemma sumFor_eq_zero (ps : List (String × ℚ)) (n : String)
    (h : n ∉ collectKeys ps) : sumFor ps n = 0 := by
  unfold sumFor
  have hnil : ps.filter (fun p => decide (p.1 = n)) = [] := by
    rw [List.filter_eq_nil_iff]
    intro a ha
    simp only [decide_eq_true_eq]
    intro han
    exact h (han ▸ fst_mem_collectKeys ps a ha)
  rw [hnil]
  rfl

lemma addEmotion_map (keys : List String) (f : String → ℚ) (name : String)
    (v : ℚ) (hnd : keys.Nodup) :
    addEmotion (keys.map (fun n => (n, f n))) name v =
      if name ∈ keys then
        keys.map (fun n => (n, if n = name then f n + v else f n))
      else keys.map (fun n => (n, f n)) ++ [(name, v)] := by
  induction keys with
  | nil => simp [addEmotion]
  | cons k ks ih =>
    have hk : k ∉ ks := (List.nodup_cons.mp hnd).1
    have hnd2 : ks.Nodup := (List.nodup_cons.mp hnd).2
    rw [List.map_cons]
    simp only [addEmotion]
    by_cases hkn : k = name
    · subst hkn
      rw [if_pos rfl, if_pos (List.mem_cons_self k ks), List.map_cons,
        if_pos rfl]
      congr 1
      apply List.map_congr_left
      intro a ha
      have hak : a ≠ k := fun h => hk (h ▸ ha)
      simp [hak]
    · rw [if_neg hkn, ih hnd2]
      by_cases hmem : name ∈ ks
      · rw [if_pos hmem, if_pos (List.mem_cons_of_mem k hmem), List.map_cons]
        congr 1
        simp [hkn]
      · have hnk : name ∉ k :: ks := by
          simp only [List.mem_cons, not_or]
          exact ⟨fun h => hkn h.symm, hmem⟩
        rw [if_neg hmem, if_neg hnk, List.cons_append]

lemma foldl_nested {β : Type} (g : β → String × ℚ → β) :
    ∀ (history : List MoodHistoryEntry) (init : β),
      history.foldl (fun acc entry => entry.emotions.foldl g acc) init
        = (allEmotionPairs history).foldl g init
  | [], _ => rfl
  | e :: hs, init => by
    have hall : allEmotionPairs (e :: hs) = e.emotions ++ allEmotionPairs hs :=
      rfl
    rw [List.foldl_cons, hall, List.foldl_append]
    exact foldl_nested g hs _

lemma emotionData_eq_buildMap (history : List MoodHistoryEntry) :
    emotionData history = buildMap (allEmotionPairs history) :=
  foldl_nested _ history []

lemma buildMap_eq (ps : List (String × ℚ)) :
    buildMap ps = (collectKeys ps).map (fun n => (n, sumFor ps n)) := by
  induction ps using List.reverseRecOn with
  | nil => rfl
  | append_singleton ps p ih =>
    rw [buildMap_append, ih, addEmotion_map _ _ _ _ (collectKeys_nodup ps),
      collectKeys_append]
    by_cases hmem : p.1 ∈ collectKeys ps
    · rw [if_pos hmem, if_pos hmem]
      apply List.map_congr_left
      intro a ha
      by_cases han : a = p.1
      · subst han
        simp [sumFor_append]
      · have hpa : p.1 ≠ a := fun h => han h.symm
        simp [sumFor_append, han, hpa]
    · rw [if_neg hmem, if_neg hmem, List.map_append]
      congr 1
      · apply List.map_congr_left
        intro a ha
        have hpa : p.1 ≠ a := fun h => hmem (h ▸ ha)
        simp [sumFor_append, hpa]
      · simp [sumFor_append, sumFor_eq_zero ps p.1 hmem]

lemma emotionData_eq_spec (history : List MoodHistoryEntry) :
    emotionData history
      = (emotionNames history).map (fun n => (n, sumIntensity history n)) := by
  rw [emotionData_eq_buildMap, buildMap_eq]
  rfl

/-! ### Claims about the crisis checker and the mood scorer -/

/-- Claim C1: for every analysis result, `requires_immediate_attention` is
true if and only if `risk_level` equals HIGH. -/
theorem crisis_attention_iff_high (categories : List IndicatorCategory)
    (catalog : List Resource) (displayCount : ℕ) (text : String) :
    (checkCrisis categories catalog displayCount text).requires_immediate_attention
        = true ↔
      (checkCrisis categories catalog displayCount text).risk_level
        = RiskLevel.HIGH := by
  by_cases h1 : (matchedCategories categories text).any (fun c => c.highSeverity)
      = true
  · simp [checkCrisis, h1]
  · by_cases h2 : (matchedCategories categories text).isEmpty = true
    · simp [checkCrisis, h1, h2]
    · simp [checkCrisis, h1, h2]

/-- Claim C2: for every emotion intensity mapping, of any magnitude, the
mood score computed by `calculateMoodScore` lies in the interval [0, 10]. -/
theorem mood_score_in_range (expressions : List (String × ℚ)) :
    0 ≤ calculateMoodScore expressions ∧ calculateMoodScore expressions ≤ 10 := by
  unfold calculateMoodScore
  exact ⟨le_max_left 0 _, max_le (by norm_num) (min_le_left 10 _)⟩

/-- Claim C3: for every emotion mapping in which every intensity is zero,
`calculateMoodScore` returns exactly 5, the neutral baseline. -/
theorem zero_emotions_baseline (expressions : List (String × ℚ))
    (h : ∀ p ∈ expressions, p.2 = 0) : calculateMoodScore expressions = 5 := by
  unfold calculateMoodScore
  rw [foldl_moodStep_zero expressions h 5]
  norm_num

/-- Witness for claim C3 at a concrete all-zero mapping. -/
theorem zero_emotions_baseline_witness :
    calculateMoodScore [("happy", 0), ("neutral", 0), ("sad", 0)] = 5 :=
  zero_emotions_baseline [("happy", 0), ("neutral", 0), ("sad", 0)] (by decide)

/-- Claim C4: for the mapping with happy 0.8 and sad 0.1,
`calculateMoodScore` returns 5 + 0.8 * 3 - 0.1 * 3 = 7.1. -/
theorem example_mood_score :
    calculateMoodScore [("happy", 8/10), ("sad", 1/10)]
        = 5 + (8/10) * 3 - (1/10) * 3 ∧
    calculateMoodScore [("happy", 8/10), ("sad", 1/10)] = 71/10 := by
  have hne : ¬("sad" = "happy" ∨ "sad" = "surprised") := by decide
  constructor <;>
    norm_num [calculateMoodScore, moodStep, positiveEmotions, negativeEmotions,
      hne]

/-- Claim C9: `calculateMoodScore` is monotone coordinatewise: raising a
positive-emotion intensity never lowers the score, raising a
negative-emotion intensity never raises it, and changing the intensity of
any other emotion name leaves the score unchanged. -/
theorem mood_score_monotone (pre post : List (String × ℚ)) (name : String)
    (v w : ℚ) (hvw : v ≤ w) :
    (positiveEmotions.contains name = true →
      calculateMoodScore (pre ++ (name, v) :: post) ≤
        calculateMoodScore (pre ++ (name, w) :: post)) ∧
    (negativeEmotions.contains name = true →
      calculateMoodScore (pre ++ (name, w) :: post) ≤
        calculateMoodScore (pre ++ (name, v) :: post)) ∧
    (positiveEmotions.contains name = false →
      negativeEmotions.contains name = false →
      calculateMoodScore (pre ++ (name, v) :: post) =
        calculateMoodScore (pre ++ (name, w) :: post)) := by
  unfold calculateMoodScore
  rw [List.foldl_append, List.foldl_append, List.foldl_cons, List.foldl_cons]
  have h3 : v * 3 ≤ w * 3 := mul_le_mul_of_nonneg_right hvw (by norm_num)
  refine ⟨?_, ?_, ?_⟩
  · intro hpos
    have hmem : name = "happy" ∨ name = "surprised" := by
      simpa [positiveEmotions] using hpos
    apply clamp_mono
    apply foldl_moodStep_mono
    rcases hmem with rfl | rfl <;>
      · simp [moodStep, positiveEmotions, negativeEmotions]; linarith
  · intro hneg
    have hmem : name = "sad" ∨ name = "angry" ∨ name = "fearful" ∨
        name = "disgusted" := by
      simpa [negativeEmotions] using hneg
    apply clamp_mono
    apply foldl_moodStep_mono
    rcases hmem with rfl | rfl | rfl | rfl <;>
      · simp [moodStep, positiveEmotions, negativeEmotions]; linarith
  · intro hpos hneg
    have hp : ¬(name = "happy" ∨ name = "surprised") := by
      simpa [positiveEmotions] using hpos
    have hn : ¬(name = "sad" ∨ name = "angry" ∨ name = "fearful" ∨
        name = "disgusted") := by
      simpa [negativeEmotions] using hneg
    have hv : moodStep (pre.foldl moodStep 5) (name, v)
        = pre.foldl moodStep 5 := by
      simp [moodStep, positiveEmotions, negativeEmotions, hp, hn]
    have hw : moodStep (pre.foldl moodStep 5) (name, w)
        = pre.foldl moodStep 5 := by
      simp [moodStep, positiveEmotions, negativeEmotions, hp, hn]
    rw [hv, hw]

/-- Witness for claim C9: raising the happy intensity from 0 to 1 does not
lower the score. -/
theorem mood_score_monotone_witness :
    calculateMoodScore ([] ++ ("happy", 0) :: []) ≤
      calculateMoodScore ([] ++ ("happy", 1) :: []) :=
  (mood_score_monotone [] [] "happy" 0 1 (by norm_num)).1 (by decide)

/-! ### Claims about the face-scan override and the analyze guard -/

/-- Claim C5: on the face-scan path the shown result carries exactly the
face-derived mood score, whatever text-derived score the backend returned:
the override is replacement, not blending. -/
theorem face_score_override (analyze : String → MoodAnalysisResponse)
    (emotions : List (String × ℚ)) (moodScore : ℚ) :
    (handleFaceEmotionDetected analyze emotions moodScore).mood_analysis.mood_score
      = moodScore := rfl

/-- Claim C10: the face-scan override changes exactly the two fields
`mood_analysis.mood_score` and `mood_analysis.emotions` of the backend
response; sentiment, text length, crisis check, recommendations and the
success flag are exactly those the backend computed for the synthesised
emotion text. -/
theorem face_override_frame (analyze : String → MoodAnalysisResponse)
    (emotions : List (String × ℚ)) (moodScore : ℚ) :
    (handleFaceEmotionDetected analyze emotions moodScore).mood_analysis.mood_score
        = moodScore ∧
    (handleFaceEmotionDetected analyze emotions moodScore).mood_analysis.emotions
        = emotions ∧
    (handleFaceEmotionDetected analyze emotions moodScore).mood_analysis.sentiment
        = (analyze (emotionText emotions)).mood_analysis.sentiment ∧
    (handleFaceEmotionDetected analyze emotions moodScore).mood_analysis.text_length
        = (analyze (emotionText emotions)).mood_analysis.text_length ∧
    (handleFaceEmotionDetected analyze emotions moodScore).crisis_check
        = (analyze (emotionText emotions)).crisis_check ∧
    (handleFaceEmotionDetected analyze emotions moodScore).recommendations
        = (analyze (emotionText emotions)).recommendations ∧
    (handleFaceEmotionDetected analyze emotions moodScore).success
        = (analyze (emotionText emotions)).success :=
  ⟨rfl, rfl, rfl, rfl, rfl, rfl, rfl⟩

/-- Claim C7: blank input (empty or whitespace-only text) is rejected with
the input-error message, and the backend is not called: the outcome is the
same error whatever the backend function is. -/
theorem blank_text_rejected (text : String) (h : jsTrim text = "")
    (analyze : String → MoodAnalysisResponse) :
    handleAnalyze analyze text
      = Except.error "Please enter some text to analyze" := by
  unfold handleAnalyze
  rw [if_pos h]

/-- Witness for claim C7 at whitespace-only input. -/
theorem blank_text_rejected_witness :
    handleAnalyze (fun _ => sampleResponse) "   "
      = Except.error "Please enter some text to analyze" :=
  blank_text_rejected "   " (by decide) (fun _ => sampleResponse)

/-- Claim C8: with an empty history the dashboard renders the no-data
state, and a missing average mood is displayed as the sentinel string. -/
theorem empty_history_no_data (patterns : Option PatternSummary)
    (p : PatternSummary) (hp : p.average_mood = none) :
    renderDashboard false [] patterns = DashboardView.noDataView ∧
    averageMoodText none = "N/A" ∧
    averageMoodText (some p) = "N/A" := by
  refine ⟨rfl, rfl, ?_⟩
  simp [averageMoodText, hp]

/-- Witness for claim C8 at a concrete pattern summary with no average. -/
theorem empty_history_no_data_witness :
    renderDashboard false [] none = DashboardView.noDataView ∧
    averageMoodText none = "N/A" ∧
    averageMoodText
        (some { average_mood := none, trend := none, ai_insight := none })
      = "N/A" :=
  empty_history_no_data none
    { average_mood := none, trend := none, ai_insight := none } rfl

/-! ### Claim about the dashboard emotion summary -/

/-- Claim C6: for every non-empty history window, the top-emotions summary
equals the spec computation (sum intensities per emotion name across the
window, rank the sums descending, take the first five, report each as the
sum divided by the entry count), and the reported list is in descending
order of reported value. -/
theorem topEmotions_spec (history : List MoodHistoryEntry)
    (hne : history ≠ []) :
    topEmotions history = specTopEmotions history ∧
    (topEmotions history).Pairwise (fun p q => q.2 ≤ p.2) := by
  constructor
  · unfold topEmotions specTopEmotions
    rw [emotionData_eq_spec]
  · have hn : (0 : ℚ) < (history.length : ℚ) := by
      have hpos := List.length_pos.mpr hne
      exact_mod_cast hpos
    unfold topEmotions
    have hsorted : ((emotionData history).mergeSort byScoreDesc).Pairwise
        (fun p q => byScoreDesc p q = true) := by
      apply List.sorted_mergeSort
      · intro a b c hab hbc
        simp only [byScoreDesc, decide_eq_true_eq] at hab hbc ⊢
        exact le_trans hbc hab
      · intro a b
        simp only [byScoreDesc]
        rcases le_total b.2 a.2 with h | h <;> simp [h]
    have htake : (((emotionData history).mergeSort byScoreDesc).take 5).Pairwise
        (fun p q => byScoreDesc p q = true) :=
      hsorted.sublist (List.take_sublist 5 _)
    rw [List.pairwise_map]
    refine List.Pairwise.imp ?_ htake
    intro a b hab
    simp only [byScoreDesc, decide_eq_true_eq] at hab
    exact (div_le_div_iff_of_pos_right hn).mpr hab

/-- Concrete history entries used by the claim C6 witness. -/
def entryA : MoodHistoryEntry where
  timestamp := "2025-01-01T10:00:00"
  mood_score := 4
  sentiment := { label := "NEGATIVE", score := 1/2 }
  emotions := [("sad", 1)]
  text := "feeling down"

/-- Second concrete history entry used by the claim C6 witness. -/
def entryB : MoodHistoryEntry where
  timestamp := "2025-01-02T10:00:00"
  mood_score := 6
  sentiment := { label := "POSITIVE", score := 3/5 }
  emotions := [("sad", 1/2)]
  text := "a bit better"

/-- Witness for claim C6 at a concrete two-entry history. -/
theorem topEmotions_spec_witness :
    topEmotions [entryA, entryB] = specTopEmotions [entryA, entryB] ∧
    (topEmotions [entryA, entryB]).Pairwise (fun p q => q.2 ≤ p.2) :=
  topEmotions_spec [entryA, entryB] (List.cons_ne_nil _ _)

end WonderOfUs
